import Mathlib

/-!
Shallow embedding of the hr-builder assessment builder.

The TypeScript sources embedded here:
* `types/assessment.ts` — the data model (`Question`, `Section`, `Assessment`,
  `ValidationRule`, `ConditionalLogic`).
* `LivePreview.tsx` — `validateQuestion`, `validateCurrentSection`, the
  conditional-visibility check inside `renderQuestion`, and the `progress`
  computation.
* `SectionBuilder.tsx` — `deleteSection`, `deleteQuestion`, `duplicateSection`.
* `AssessmentBuilder.tsx` — `reorderItems`, `handleDragEnd`.
* `BuilderSidebar.tsx` — the question-type registry, `addQuestion`,
  `updateQuestion`, and the add-question button handler.
* `useAssessment.ts` — `createSampleAssessment`, `createNewAssessment`, and the
  load-from-storage initializer.

JavaScript runtime values are modelled explicitly: a response value is either a
string or a list of strings (`RVal`); `undefined` is `Option.none`; a JS `Date`
is `Option Int` (milliseconds since epoch, `none` standing for Invalid Date);
JS `Date` string parsing is an external platform facility and is therefore a
parameter (`parse : String → Option Int`, `none` for malformed input).
-/

namespace HRB

/-- The six question type tags of `QuestionType` in `types/assessment.ts`. -/
inductive QuestionType where
  | singleChoice
  | multiChoice
  | shortText
  | longText
  | numeric
  | fileUpload
  deriving DecidableEq, Repr

/-- `ValidationRule` from `types/assessment.ts`; every field optional. -/
structure ValidationRule where
  minLength : Option Nat := none
  maxLength : Option Nat := none
  minValue : Option Int := none
  maxValue : Option Int := none
  pattern : Option String := none
  required : Option Bool := none
  deriving DecidableEq, Repr

/-- The condition tags admitted by `ConditionalLogic.condition` in
`types/assessment.ts`: `'equals' | 'not-equals' | 'contains' |
'greater-than' | 'less-than'`. -/
inductive Condition where
  | equals
  | notEquals
  | contains
  | greaterThan
  | lessThan
  deriving DecidableEq, Repr

/-- `ConditionalLogic.value` is `string | number` in the source. -/
inductive CVal where
  | cstr (s : String)
  | cnum (n : Int)
  deriving DecidableEq, Repr

/-- `ConditionalLogic` from `types/assessment.ts`. -/
structure ConditionalLogic where
  dependsOn : String
  condition : Condition
  value : CVal
  deriving DecidableEq, Repr

/-- `Question` from `types/assessment.ts`. -/
structure Question where
  id : String
  type : QuestionType
  title : String
  description : Option String := none
  required : Bool
  order : Nat
  validation : Option ValidationRule := none
  conditional : Option ConditionalLogic := none
  options : Option (List String) := none
  placeholder : Option String := none
  deriving DecidableEq, Repr

/-- `Section` from `types/assessment.ts`. -/
structure Section where
  id : String
  title : String
  description : Option String := none
  order : Nat
  questions : List Question
  isExpanded : Option Bool := none
  deriving DecidableEq, Repr

/-- A JS `Date`: milliseconds since the epoch, `none` = Invalid Date. -/
abbrev JSDate := Option Int

/-- `Assessment` from `types/assessment.ts`. -/
structure Assessment where
  id : String
  jobId : String
  title : String
  description : String
  sections : List Section
  createdAt : JSDate
  updatedAt : JSDate
  deriving DecidableEq, Repr

/-- A response value: the preview stores either the string from a text /
numeric / single-choice input or the list of checked options of a
multi-choice question. -/
inductive RVal where
  | str (s : String)
  | list (xs : List String)
  deriving DecidableEq, Repr

/-- The session's `responses` record (`Record<string, any>`); a JS object,
so its keys are unique by construction. -/
abbrev Responses := List (String × RVal)

/-- `responses[questionId]` — property lookup, `undefined` when absent. -/
def lookupResponse (rs : Responses) (k : String) : Option RVal :=
  match rs.find? (fun p => p.1 == k) with
  | some p => some p.2
  | none => none

/-- JS truthiness of a (possibly `undefined`) response value: `undefined`
and `''` are falsy, every other string and every array is truthy. -/
def jsTruthy (v : Option RVal) : Bool :=
  match v with
  | none => false
  | some (.str s) => s ≠ ""
  | some (.list _) => true

/-- The emptiness test of the required check in `validateQuestion`:
`!value || (Array.isArray(value) && value.length === 0)`. -/
def isEmptyValue (v : Option RVal) : Bool :=
  !(jsTruthy v) ||
    (match v with
     | some (.list xs) => xs.isEmpty
     | _ => false)

/-- `String(x)` on a defined response value: an array stringifies to its
elements joined by commas. -/
def jsString (v : RVal) : String :=
  match v with
  | .str s => s
  | .list xs => String.intercalate "," xs

/-- `String(value || '')` as used in `validateQuestion` and in the
`contains` branch of the conditional check: a falsy value is replaced by
`''` before stringifying. -/
def jsStringOrEmpty (v : Option RVal) : String :=
  if jsTruthy v then
    match v with
    | some w => jsString w
    | none => ""
  else ""

/-- Integer-literal model of JS `Number(...)` string coercion: optional
sign followed by digits; `''` coerces to `0`; anything else is NaN
(`none`). Fractional forms are not modelled — no claim depends on them. -/
def parseNumLit (s : String) : Option Int :=
  if s = "" then some 0
  else
    let core := fun (ds : List Char) =>
      if ds ≠ [] ∧ ds.all Char.isDigit then
        some (ds.foldl (fun acc c => acc * 10 + (c.toNat - 48)) (0 : Nat))
      else none
    match s.data with
    | '-' :: rest => (core rest).map (fun n => -(n : Int))
    | ds => (core ds).map (fun n => (n : Int))

/-- `Number(value)` for a possibly `undefined` response value:
`Number(undefined)` is NaN, an array coerces via its joined string. -/
def jsToNumber (v : Option RVal) : Option Int :=
  match v with
  | none => none
  | some (.str s) => parseNumLit s
  | some (.list xs) => parseNumLit (String.intercalate "," xs)

/-- `n < m` under JS semantics where `n` may be NaN (`none`): any
comparison with NaN is false. -/
def jsLt (n : Option Int) (m : Int) : Bool :=
  match n with
  | none => false
  | some x => x < m

/-- `n > m` under JS semantics where `n` may be NaN (`none`). -/
def jsGt (n : Option Int) (m : Int) : Bool :=
  match n with
  | none => false
  | some x => m < x

/-- Infix (substring) test on character lists, scanning every suffix. -/
def charsInclude (sub : List Char) : List Char → Bool
  | [] => sub.isEmpty
  | c :: rest => sub.isPrefixOf (c :: rest) || charsInclude sub rest

/-- JS `s.includes(sub)` substring containment. -/
def jsIncludes (s sub : String) : Bool :=
  charsInclude sub.data s.data

/-- `String(x)` on a `ConditionalLogic.value` (`string | number`). -/
def cvalToString (c : CVal) : String :=
  match c with
  | .cstr s => s
  | .cnum n => toString n

/-- Error message of the numeric lower-bound check in `validateQuestion`. -/
def minValMsg (m : Int) : String := s!"Value must be at least {m}"

/-- Error message of the numeric upper-bound check in `validateQuestion`. -/
def maxValMsg (m : Int) : String := s!"Value must be at most {m}"

/-- Error message of the text lower-bound check in `validateQuestion`. -/
def minLenMsg (m : Nat) : String := s!"Must be at least {m} characters"

/-- Error message of the text upper-bound check in `validateQuestion`. -/
def maxLenMsg (m : Nat) : String := s!"Must be at most {m} characters"

/-- The numeric bounds checks of `validateQuestion` (LivePreview.tsx lines
79-87): lower bound first, then upper bound, comparisons on `Number(value)`. -/
def numericCheck (r : ValidationRule) (n : Option Int) : Option String :=
  match r.minValue with
  | some m =>
    if jsLt n m then some (minValMsg m)
    else
      match r.maxValue with
      | some mx => if jsGt n mx then some (maxValMsg mx) else none
      | none => none
  | none =>
    match r.maxValue with
    | some mx => if jsGt n mx then some (maxValMsg mx) else none
    | none => none

/-- The text length checks of `validateQuestion` (LivePreview.tsx lines
89-97), applied to `String(value || '')`. -/
def textCheck (r : ValidationRule) (t : String) : Option String :=
  match r.minLength with
  | some m =>
    if t.length < m then some (minLenMsg m)
    else
      match r.maxLength with
      | some mx => if mx < t.length then some (maxLenMsg mx) else none
      | none => none
  | none =>
    match r.maxLength with
    | some mx => if mx < t.length then some (maxLenMsg mx) else none
    | none => none

/-- `validateQuestion` from LivePreview.tsx lines 74-100: required check
first, then numeric bounds for numeric questions with a rule, then length
bounds for text questions with a rule, else no error. -/
def validateQuestion (q : Question) (v : Option RVal) : Option String :=
  if q.required && isEmptyValue v then some "This field is required"
  else
    match q.type, q.validation with
    | .numeric, some r => numericCheck r (jsToNumber v)
    | .shortText, some r => textCheck r (jsStringOrEmpty v)
    | .longText, some r => textCheck r (jsStringOrEmpty v)
    | _, _ => none

/-- The conditional-visibility check at the head of `renderQuestion`
(LivePreview.tsx lines 144-161): no conditional means visible; `equals` /
`not-equals` use JS strict equality against the dependent response;
`contains` is a substring test of `String(conditional.value)` inside
`String(dependentValue || '')`; every other tag falls through the
`default` branch to visible. Strict equality between a response value
(string or array, possibly `undefined`) and a `string | number`
conditional value holds exactly for equal strings. -/
def shouldShowQuestion (q : Question) (rs : Responses) : Bool :=
  match q.conditional with
  | none => true
  | some c =>
    let dependentValue := lookupResponse rs c.dependsOn
    match c.condition with
    | .equals =>
      match dependentValue, c.value with
      | some (.str s), .cstr t => s = t
      | _, _ => false
    | .notEquals =>
      match dependentValue, c.value with
      | some (.str s), .cstr t => s ≠ t
      | _, _ => true
    | .contains => jsIncludes (jsStringOrEmpty dependentValue) (cvalToString c.value)
    | _ => true

/-- The error map built by `validateCurrentSection` (LivePreview.tsx lines
102-118): every question of the section is validated against
`responses[question.id]`, and each failure contributes the pair
`(question.id, error)`.  No visibility filter is applied. -/
def validateSectionErrors (sec : Section) (rs : Responses) : List (String × String) :=
  sec.questions.filterMap
    (fun q => (validateQuestion q (lookupResponse rs q.id)).map (fun e => (q.id, e)))

/-- The boolean result of `validateCurrentSection`: `true` when the current
section is `undefined` or when no question produced an error. -/
def validateCurrentSection (a : Assessment) (idx : Nat) (rs : Responses) : Bool :=
  match a.sections.get? idx with
  | none => true
  | some sec => (validateSectionErrors sec rs).isEmpty

/-- `totalQuestions` from LivePreview.tsx line 58: sum of section question
counts. -/
def totalQuestions (a : Assessment) : Nat :=
  a.sections.foldl (fun acc sec => acc + sec.questions.length) 0

/-- `answeredQuestions` from LivePreview.tsx line 59:
`Object.keys(responses).length`. -/
def answeredQuestions (rs : Responses) : Nat := rs.length

/-- `progress` from LivePreview.tsx line 60:
`totalQuestions > 0 ? (answeredQuestions / totalQuestions) * 100 : 0`,
computed over the rationals. -/
def progress (a : Assessment) (rs : Responses) : ℚ :=
  if 0 < totalQuestions a then
    ((answeredQuestions rs : ℚ) / (totalQuestions a : ℚ)) * 100
  else 0

/-- `deleteSection` from SectionBuilder.tsx lines 62-65: the matching
section is filtered out; the remaining sections are not touched (in
particular their `order` fields are not renumbered). -/
def deleteSection (a : Assessment) (sectionId : String) : Assessment :=
  { a with sections := a.sections.filter (fun s => s.id ≠ sectionId) }

/-- `deleteQuestion` from SectionBuilder.tsx lines 108-114, routed through
`updateSection`: inside the section with the matching id the question is
filtered out; no sibling question is renumbered and no other section is
touched. -/
def deleteQuestion (a : Assessment) (sectionId questionId : String) : Assessment :=
  { a with
    sections := a.sections.map
      (fun s =>
        if s.id = sectionId then
          { s with questions := s.questions.filter (fun q => q.id ≠ questionId) }
        else s) }

/-- `duplicateSection` from SectionBuilder.tsx lines 67-83: a copy of the
section with fresh ids (`Date.now()` / `Math.random()`-based in the
source, taken here as parameters), title suffixed, `order` set to the
current section count, appended at the tail. The copied questions keep
their `order` fields. -/
def duplicateSection (a : Assessment) (sec : Section) (newSecId : String)
    (newQIds : List String) : Assessment :=
  let newSection : Section :=
    { sec with
      id := newSecId
      title := sec.title ++ " (Copy)"
      order := a.sections.length
      questions := (sec.questions.zip newQIds).map (fun p => { p.1 with id := p.2 }) }
  { a with sections := a.sections ++ [newSection] }

/-- `reorderItems` from AssessmentBuilder.tsx lines 83-87.  The body is a
placeholder: it returns the assessment unchanged for every pair of ids
(the source comment reads "This would be more complex in a real
implementation"). -/
def reorderItems (a : Assessment) (activeId overId : String) : Assessment :=
  let _ := activeId
  let _ := overId
  a

/-- The state effect of `handleDragEnd` (AssessmentBuilder.tsx lines
47-67): no update when there is no drop target or the item was dropped on
itself; otherwise `onUpdateAssessment (reorderItems ...)`. -/
def handleDragEnd (a : Assessment) (activeId : String) (overId : Option String) :
    Option Assessment :=
  match overId with
  | none => none
  | some o => if activeId = o then none else some (reorderItems a activeId o)

/-- The `defaultProps` of the question-type registry `questionTypes` in
BuilderSidebar.tsx lines 33-105, merged with a fresh id into a `Question`
(the spread `{ id, ...defaultProps, order: 0 }` of `addQuestion`). -/
def questionFromTemplate (t : QuestionType) (newId : String) : Question :=
  match t with
  | .singleChoice =>
    { id := newId, type := .singleChoice, title := "New Single Choice Question",
      required := false, order := 0,
      options := some ["Option 1", "Option 2", "Option 3"] }
  | .multiChoice =>
    { id := newId, type := .multiChoice, title := "New Multiple Choice Question",
      required := false, order := 0,
      options := some ["Option 1", "Option 2", "Option 3"] }
  | .shortText =>
    { id := newId, type := .shortText, title := "New Short Text Question",
      required := false, order := 0,
      placeholder := some "Enter your answer..." }
  | .longText =>
    { id := newId, type := .longText, title := "New Long Text Question",
      required := false, order := 0,
      placeholder := some "Enter your detailed answer..." }
  | .numeric =>
    { id := newId, type := .numeric, title := "New Numeric Question",
      required := false, order := 0,
      placeholder := some "Enter a number..." }
  | .fileUpload =>
    { id := newId, type := .fileUpload, title := "New File Upload Question",
      required := false, order := 0 }

/-- `addQuestion` from BuilderSidebar.tsx lines 133-154: the template
question is appended to the section with the matching id, its `order` set
to the previous question count of that section; other sections are
untouched, and a missing section id leaves every section unchanged. -/
def addQuestionSidebar (a : Assessment) (sectionId newId : String)
    (t : QuestionType) : Assessment :=
  let newQuestion := questionFromTemplate t newId
  { a with
    sections := a.sections.map
      (fun s =>
        if s.id = sectionId then
          { s with questions := s.questions ++ [{ newQuestion with order := s.questions.length }] }
        else s) }

/-- A partial `Question` (`Partial<Question>`) as passed to
`updateQuestion`: `none` fields are absent from the patch, present fields
overwrite the question's fields under the JS spread `{...question, ...updates}`. -/
structure QuestionPatch where
  type : Option QuestionType := none
  title : Option String := none
  description : Option (Option String) := none
  required : Option Bool := none
  order : Option Nat := none
  validation : Option (Option ValidationRule) := none
  conditional : Option (Option ConditionalLogic) := none
  options : Option (Option (List String)) := none
  placeholder : Option (Option String) := none
  deriving DecidableEq, Repr

/-- The spread merge `{ ...question, ...updates }`. -/
def applyPatch (q : Question) (p : QuestionPatch) : Question :=
  { q with
    type := p.type.getD q.type
    title := p.title.getD q.title
    description := p.description.getD q.description
    required := p.required.getD q.required
    order := p.order.getD q.order
    validation := p.validation.getD q.validation
    conditional := p.conditional.getD q.conditional
    options := p.options.getD q.options
    placeholder := p.placeholder.getD q.placeholder }

/-- `updateQuestion` from BuilderSidebar.tsx lines 161-173: every section
is rebuilt with its questions mapped, the matching question merged with
the patch and every other question kept as is. -/
def updateQuestionSidebar (a : Assessment) (questionId : String)
    (p : QuestionPatch) : Assessment :=
  { a with
    sections := a.sections.map
      (fun s =>
        { s with
          questions := s.questions.map
            (fun q => if q.id = questionId then applyPatch q p else q) }) }

/-- The default section created by the add-question button handler when no
sections exist (BuilderSidebar.tsx lines 256-263). -/
def defaultFirstSection (newSecId : String) : Section :=
  { id := newSecId, title := "Section 1", description := some "", order := 0,
    questions := [], isExpanded := some true }

/-- The add-question button handler of BuilderSidebar.tsx lines 252-272,
modelled as the sequence of assessments it passes to
`onUpdateAssessment`, in order.  When no sections exist it first publishes
the assessment with the fresh empty section, then — via
`setTimeout(() => addQuestion(newSection.id, questionType), 100)` — calls
the `addQuestion` captured by the closure of the render that observed the
empty section list, so the deferred call runs against the pre-click
assessment `a` (whose sections are `[]`), not against the state just
published.  When sections exist, a single update adds the question to the
first section. -/
def addQuestionButtonClick (a : Assessment) (t : QuestionType)
    (newSecId newQId : String) : List Assessment :=
  match a.sections with
  | [] =>
    [{ a with sections := [defaultFirstSection newSecId] },
     addQuestionSidebar a newSecId newQId t]
  | s0 :: _ =>
    [addQuestionSidebar a s0.id newQId t]

/-- The parsed JSON blob of a persisted assessment as it comes out of
`JSON.parse` in the `useAssessment` initializer: timestamps are still the
serialized strings. -/
structure StoredAssessment where
  id : String
  jobId : String
  title : String
  description : String
  sections : List Section
  createdAt : String
  updatedAt : String
  deriving DecidableEq, Repr

/-- `createSampleAssessment` from useAssessment.ts lines 4-129, with the
`new Date()` timestamp as a parameter. -/
def createSampleAssessment (now : Int) : Assessment :=
  { id := "sample-assessment-1"
    jobId := "job-frontend-developer"
    title := "Frontend Developer Assessment"
    description := "Comprehensive assessment for frontend developer candidates covering technical skills, problem-solving abilities, and cultural fit."
    sections :=
      [{ id := "section-technical"
         title := "Technical Skills"
         description := some "Evaluate the candidate\x27s technical knowledge and programming skills."
         order := 0
         isExpanded := some true
         questions :=
           [{ id := "question-js-experience", type := .singleChoice,
              title := "How many years of JavaScript experience do you have?",
              description := some "Include both professional and personal project experience.",
              required := true, order := 0,
              options := some ["Less than 1 year", "1-2 years", "3-5 years", "5+ years"] },
            { id := "question-frameworks", type := .multiChoice,
              title := "Which frontend frameworks have you worked with?",
              description := some "Select all that apply.",
              required := true, order := 1,
              options := some ["React", "Vue.js", "Angular", "Svelte", "Next.js", "Nuxt.js"] },
            { id := "question-code-sample", type := .longText,
              title := "Describe a challenging technical problem you solved recently",
              description := some "Include the problem, your approach, and the outcome.",
              required := true, order := 2,
              placeholder := some "Describe the problem, your solution approach, technologies used, and the final outcome...",
              validation := some { minLength := some 100, maxLength := some 1000 } }] },
       { id := "section-experience"
         title := "Professional Experience"
         description := some "Tell us about your background and career journey."
         order := 1
         isExpanded := some false
         questions :=
           [{ id := "question-years-experience", type := .numeric,
              title := "Total years of professional development experience",
              required := true, order := 0,
              validation := some { minValue := some 0, maxValue := some 50 } },
            { id := "question-portfolio", type := .shortText,
              title := "Portfolio or GitHub URL",
              description := some "Share a link to your best work.",
              required := false, order := 1,
              placeholder := some "https://github.com/username or https://portfolio.com" },
            { id := "question-resume", type := .fileUpload,
              title := "Upload your resume",
              description := some "Please upload your most recent resume (PDF preferred).",
              required := true, order := 2 }] },
       { id := "section-culture"
         title := "Culture & Values"
         description := some "Help us understand if we\x27re a good mutual fit."
         order := 2
         isExpanded := some false
         questions :=
           [{ id := "question-work-style", type := .singleChoice,
              title := "What work environment do you thrive in?",
              required := true, order := 0,
              options := some ["Collaborative team environment",
                "Independent work with minimal supervision",
                "Mix of both collaboration and independent work",
                "Highly structured with clear processes"] },
            { id := "question-motivation", type := .longText,
              title := "What motivates you as a developer?",
              description := some "Share what drives your passion for development.",
              required := true, order := 1,
              placeholder := some "Tell us about what excites you most about software development...",
              validation := some { minLength := some 50, maxLength := some 500 } }] }]
    createdAt := some now
    updatedAt := some now }

/-- `createNewAssessment` from useAssessment.ts lines 164-177, with the
`Date.now()` id suffix and timestamps as parameters. -/
def createNewAssessment (idSuffix : String) (now : Int) : Assessment :=
  { id := "assessment-" ++ idSuffix
    jobId := ""
    title := "New Assessment"
    description := "Enter a description for your assessment..."
    sections := []
    createdAt := some now
    updatedAt := some now }

/-- The revive step of the `useAssessment` initializer (useAssessment.ts
lines 138-142): `{ ...parsed, createdAt: new Date(parsed.createdAt),
updatedAt: new Date(parsed.updatedAt) }`.  `new Date(string)` never
throws; parsing is the external platform facility `parse`, returning
`none` (Invalid Date) for malformed input.  No validity check and no
fallback is applied to the parse result. -/
def reviveStored (parse : String → Option Int) (st : StoredAssessment) : Assessment :=
  { id := st.id
    jobId := st.jobId
    title := st.title
    description := st.description
    sections := st.sections
    createdAt := parse st.createdAt
    updatedAt := parse st.updatedAt }

/-- The `useState` initializer of `useAssessment` (useAssessment.ts lines
132-150): nothing saved, or a saved blob whose `JSON.parse` failed
(`Except.error`), falls back to the sample assessment; a successfully
parsed blob is revived with no further error handling. -/
def loadInitializer (parse : String → Option Int)
    (saved : Option (Except Unit StoredAssessment)) (now : Int) : Assessment :=
  match saved with
  | some (Except.ok st) => reviveStored parse st
  | some (Except.error _) => createSampleAssessment now
  | none => createSampleAssessment now

/-- The order invariant claimed by the spec: within every sibling group the
`order` fields equal the zero-based positions. -/
def orderInvariant (a : Assessment) : Bool :=
  (a.sections.map Section.order == List.range a.sections.length) &&
    a.sections.all
      (fun s => s.questions.map Question.order == List.range s.questions.length)

/-! Concrete fixtures used by the theorems below. -/

/-- Three empty sections A, B, C with contiguous orders — the reorder
scenario of the spec. -/
def sampleABC : Assessment :=
  { id := "a1", jobId := "", title := "T", description := ""
    createdAt := some 0, updatedAt := some 0
    sections :=
      [{ id := "A", title := "A", order := 0, questions := [] },
       { id := "B", title := "B", order := 1, questions := [] },
       { id := "C", title := "C", order := 2, questions := [] }] }

/-- Two sections with two questions each, all orders contiguous. -/
def sampleTwo : Assessment :=
  { id := "a2", jobId := "", title := "T", description := ""
    createdAt := some 0, updatedAt := some 0
    sections :=
      [{ id := "sA", title := "A", order := 0
         questions :=
           [{ id := "qa0", type := .shortText, title := "qa0", required := false, order := 0 },
            { id := "qa1", type := .shortText, title := "qa1", required := false, order := 1 }] },
       { id := "sB", title := "B", order := 1
         questions :=
           [{ id := "qb0", type := .shortText, title := "qb0", required := false, order := 0 },
            { id := "qb1", type := .shortText, title := "qb1", required := false, order := 1 }] }] }

/-- An unconditional optional question. -/
def qPlain : Question :=
  { id := "Q1", type := .shortText, title := "Q1", required := false, order := 0 }

/-- A required question visible only when `Q1` equals `"yes"`. -/
def qHidden : Question :=
  { id := "Q2", type := .shortText, title := "Q2", required := true, order := 1
    conditional := some { dependsOn := "Q1", condition := .equals, value := .cstr "yes" } }

/-- A section holding `qPlain` and `qHidden`. -/
def secCond : Section :=
  { id := "sCond", title := "s", order := 0, questions := [qPlain, qHidden] }

/-- An optional short-text question with a `minLength` rule. -/
def qMinLen : Question :=
  { id := "Qmin", type := .shortText, title := "Qmin", required := false, order := 0
    validation := some { minLength := some 3 } }

/-- A question whose visibility is `contains` on the answer to `D`. -/
def qContainsDep : Question :=
  { id := "Q5", type := .shortText, title := "Q5", required := false, order := 0
    conditional := some { dependsOn := "D", condition := .contains, value := .cstr "a" } }

/-- A question whose conditional uses the `greater-than` tag. -/
def qGreater : Question :=
  { id := "Qg", type := .numeric, title := "Qg", required := false, order := 0
    conditional := some { dependsOn := "D", condition := .greaterThan, value := .cnum 5 } }

/-- A persisted blob whose timestamp strings are malformed. -/
def stGarbage : StoredAssessment :=
  { id := "x", jobId := "", title := "t", description := "", sections := []
    createdAt := "not-a-date", updatedAt := "also-not-a-date" }

/-- A concrete model of JS `Date` string parsing: exactly one well-formed
ISO string is recognised; everything else is malformed (Invalid Date). -/
def parseModel (s : String) : Option Int :=
  if s = "2024-01-01T00:00:00.000Z" then some 1704067200000 else none

/-! Helper lemmas. -/

/-- A map that fixes every element of a list is the identity on it. -/
theorem list_map_eq_self {α : Type} {l : List α} {f : α → α}
    (h : ∀ x ∈ l, f x = x) : l.map f = l := by
  induction l with
  | nil => rfl
  | cons a t ih =>
    simp only [List.map_cons, List.cons.injEq]
    exact ⟨h a (List.mem_cons_self a t), ih fun x hx => h x (List.mem_cons_of_mem a hx)⟩

/-- Two maps over one list agree when the functions agree pointwise. -/
theorem list_map_congr {α β : Type} {l : List α} {f g : α → β}
    (h : ∀ x ∈ l, f x = g x) : l.map f = l.map g := by
  induction l with
  | nil => rfl
  | cons a t ih =>
    simp only [List.map_cons, List.cons.injEq]
    exact ⟨h a (List.mem_cons_self a t), ih fun x hx => h x (List.mem_cons_of_mem a hx)⟩

/-- Two maps over one list are pointwise related when the functions are. -/
theorem list_forall₂_map_map {α β : Type} {R : β → β → Prop} {l : List α}
    {f g : α → β} (h : ∀ x ∈ l, R (f x) (g x)) :
    List.Forall₂ R (l.map f) (l.map g) := by
  induction l with
  | nil => exact List.Forall₂.nil
  | cons a t ih =>
    exact List.Forall₂.cons (h a (List.mem_cons_self a t))
      (ih fun x hx => h x (List.mem_cons_of_mem a hx))

/-! Claim theorems. -/

/-- Claim C1, counterexample: the order invariant holds on a two-section
assessment but is violated by `deleteSection` of the first section and by
`deleteQuestion` of a first question — the deletes do not renumber. -/
theorem C1_order_counterexample :
    orderInvariant sampleTwo = true ∧
    orderInvariant (deleteSection sampleTwo "sA") = false ∧
    orderInvariant (deleteQuestion sampleTwo "sA" "qa0") = false := by
  decide

/-- Claim C1, amended: `deleteSection` and `deleteQuestion` remove the
matching entity but leave every remaining sibling's `order` field exactly
as it was (the surviving section orders form a sublist of the input's
orders; `deleteQuestion` keeps every section's id and order and leaves
each section's question orders a sublist of what they were), so after
deleting a non-last sibling the zero-based contiguity of `order` is lost. -/
theorem C1_delete_keeps_sibling_orders (a : Assessment) (sid secid qid : String) :
    ((deleteSection a sid).sections.map Section.order).Sublist
      (a.sections.map Section.order) ∧
    (deleteQuestion a secid qid).sections.map (fun s => (s.id, s.order)) =
      a.sections.map (fun s => (s.id, s.order)) ∧
    List.Forall₂ List.Sublist
      ((deleteQuestion a secid qid).sections.map (fun s => s.questions.map Question.order))
      (a.sections.map (fun s => s.questions.map Question.order)) := by
  refine ⟨?_, ?_, ?_⟩
  · exact (List.filter_sublist a.sections).map Section.order
  · show (a.sections.map _).map _ = _
    rw [List.map_map]
    refine list_map_congr fun s _ => ?_
    by_cases h : s.id = secid <;> simp [Function.comp, h]
  · show List.Forall₂ _ ((a.sections.map _).map _) _
    rw [List.map_map]
    refine list_forall₂_map_map fun s _ => ?_
    by_cases h : s.id = secid
    · simp only [Function.comp, h, if_pos]
      exact (List.filter_sublist s.questions).map Question.order
    · simp only [Function.comp, h, if_neg, ite_false]
      exact List.Sublist.refl _

/-- Claim C2, counterexample: with no responses, `qHidden` is invisible
(its `equals` conditional fails) yet `validateCurrentSection`'s error map
contains a required-field error for it. -/
theorem C2_invisible_required_counterexample :
    shouldShowQuestion qHidden [] = false ∧
    validateSectionErrors secCond [] = [("Q2", "This field is required")] := by
  decide

/-- Claim C2, amended: `validateCurrentSection` iterates every question of
the section with no visibility filter, so a question that fails validation
contributes its error to the section error map even when it is invisible
under its conditional rule. -/
theorem C2_validation_ignores_visibility (sec : Section) (rs : Responses)
    (q : Question) (e : String) (hq : q ∈ sec.questions)
    (hv : validateQuestion q (lookupResponse rs q.id) = some e)
    (hinvis : shouldShowQuestion q rs = false) :
    (q.id, e) ∈ validateSectionErrors sec rs := by
  have := hinvis
  exact List.mem_filterMap.mpr ⟨q, hq, by rw [hv]; rfl⟩

/-- Claim C2 witness: the amended theorem applied to the concrete
invisible required question. -/
theorem C2_validation_ignores_visibility_witness :
    ("Q2", "This field is required") ∈ validateSectionErrors secCond [] :=
  C2_validation_ignores_visibility secCond [] qHidden "This field is required"
    (by decide) (by decide) (by decide)

/-- Claim C3: `reorderItems` is a stub — on the spec's scenario
`[A(0), B(1), C(2)]` with `reorder(C.id, A.id)` it returns the assessment
unchanged, with section ids still `[A, B, C]` and not `[C, A, B]`. -/
theorem C3_reorder_stub_eval :
    reorderItems sampleABC "C" "A" = sampleABC ∧
    (reorderItems sampleABC "C" "A").sections.map Section.id = ["A", "B", "C"] ∧
    (reorderItems sampleABC "C" "A").sections.map Section.id ≠ ["C", "A", "B"] := by
  refine ⟨rfl, rfl, ?_⟩
  decide

/-- Claim C4, counterexample: an optional short-text question with
`minLength 3` produces a length error on an absent value — the required
check is skipped but `String(value || '')` is still measured. -/
theorem C4_empty_optional_minlength_counterexample :
    qMinLen.required = false ∧
    validateQuestion qMinLen none = some "Must be at least 3 characters" := by
  decide

/-- Claim C4, amended: for a text question with a `minLength` rule the
required check comes first, but an empty or absent optional value is still
measured (as `''`) against `minLength`, producing a length error whenever
`minLength` is positive; a filled value shorter than `minLength` produces
the same error regardless of required-ness. -/
theorem C4_text_minlength_behavior (q : Question) (r : ValidationRule) (m : Nat)
    (hty : q.type = .shortText ∨ q.type = .longText)
    (hval : q.validation = some r) (hmin : r.minLength = some m) (hm : 0 < m) :
    (q.required = false → validateQuestion q none = some (minLenMsg m)) ∧
    (∀ s : String, s ≠ "" → s.length < m →
      validateQuestion q (some (.str s)) = some (minLenMsg m)) := by
  constructor
  · intro hreq
    have h0 : jsStringOrEmpty none = "" := rfl
    rcases hty with h | h <;>
      simp [validateQuestion, hreq, h, hval, textCheck, hmin, h0, hm]
  · intro s hs hlen
    have htr : jsTruthy (some (.str s)) = true := by
      simp [jsTruthy, hs]
    have hemp : isEmptyValue (some (.str s)) = false := by
      simp [isEmptyValue, htr]
    have hstr : jsStringOrEmpty (some (.str s)) = s := by
      simp [jsStringOrEmpty, htr, jsString]
    rcases hty with h | h <;>
      simp [validateQuestion, hemp, h, hval, textCheck, hmin, hstr, hlen]

/-- Claim C4 witness: the amended theorem applied to the concrete optional
`minLength 3` question, on an absent value and on `"ab"`. -/
theorem C4_text_minlength_behavior_witness :
    validateQuestion qMinLen none = some "Must be at least 3 characters" ∧
    validateQuestion qMinLen (some (.str "ab")) = some "Must be at least 3 characters" :=
  ⟨(C4_text_minlength_behavior qMinLen { minLength := some 3 } 3
      (Or.inl rfl) rfl rfl (by decide)).1 rfl,
   (C4_text_minlength_behavior qMinLen { minLength := some 3 } 3
      (Or.inl rfl) rfl rfl (by decide)).2 "ab" (by decide) (by decide)⟩

/-- Claim C5, counterexample: with the multi-choice answer `["ab"]` for
`D`, the `contains` conditional on value `"a"` evaluates visible — the
array stringifies to `"ab"` and substring containment holds — although
list membership of `"a"` in `["ab"]` fails. -/
theorem C5_contains_list_counterexample :
    shouldShowQuestion qContainsDep [("D", .list ["ab"])] = true ∧
    (["ab"] : List String).contains "a" = false := by
  decide

/-- Claim C5, amended: a `contains` conditional always performs substring
containment on string forms; a list-valued dependent answer is stringified
by joining its entries with commas, so list membership is never tested. -/
theorem C5_contains_is_substring (q : Question) (c : ConditionalLogic)
    (rs : Responses) (xs : List String)
    (hc : q.conditional = some c) (hcond : c.condition = .contains)
    (hdep : lookupResponse rs c.dependsOn = some (.list xs)) :
    shouldShowQuestion q rs =
      jsIncludes (String.intercalate "," xs) (cvalToString c.value) := by
  simp [shouldShowQuestion, hc, hcond, hdep, jsStringOrEmpty, jsTruthy, jsString]

/-- Claim C5 witness: the amended theorem applied to the concrete
`contains`-conditional question and the list answer `["ab"]`. -/
theorem C5_contains_is_substring_witness :
    shouldShowQuestion qContainsDep [("D", .list ["ab"])] =
      jsIncludes (String.intercalate "," ["ab"]) (cvalToString (.cstr "a")) :=
  C5_contains_is_substring qContainsDep
    { dependsOn := "D", condition := .contains, value := .cstr "a" }
    [("D", .list ["ab"])] ["ab"] rfl rfl (by decide)

/-- Claim C6: on an assessment with no sections, the add-question button
handler publishes two states — first one with the fresh empty section and
no question (an observable intermediate state), then, because the deferred
`addQuestion` closes over the pre-click assessment whose section list is
empty, a state with no sections at all: the new section and the question
are both lost. -/
theorem C6_add_question_empty_eval :
    (addQuestionButtonClick (createNewAssessment "1" 0) .shortText
        "section-1" "question-1").map
      (fun x => x.sections.map (fun s => (s.id, s.questions.map Question.id))) =
    [[("section-1", [])], []] := by
  decide

/-- Claim C7, counterexample: reviving a stored blob whose timestamp
strings do not parse yields Invalid Date (`none`) for both timestamps, not
the current time. -/
theorem C7_malformed_timestamp_counterexample :
    (loadInitializer parseModel (some (Except.ok stGarbage)) 1700000000000).createdAt
        = none ∧
    (loadInitializer parseModel (some (Except.ok stGarbage)) 1700000000000).updatedAt
        = none ∧
    (loadInitializer parseModel (some (Except.ok stGarbage)) 1700000000000).createdAt
        ≠ some 1700000000000 := by
  refine ⟨rfl, rfl, ?_⟩
  decide

/-- Claim C7, amended: deserialization never crashes (the initializer is a
total function), but a malformed `createdAt` string yields an Invalid Date
value, never the current time; the fallback to the sample assessment
(whose timestamps are the current time) happens only when `JSON.parse`
itself fails or nothing is stored. -/
theorem C7_revive_no_fallback (parse : String → Option Int)
    (st : StoredAssessment) (now : Int)
    (hbad : parse st.createdAt = none) :
    (loadInitializer parse (some (Except.ok st)) now).createdAt = none ∧
    (loadInitializer parse (some (Except.ok st)) now).createdAt ≠ some now ∧
    loadInitializer parse (some (Except.error ())) now = createSampleAssessment now ∧
    loadInitializer parse none now = createSampleAssessment now := by
  refine ⟨?_, ?_, rfl, rfl⟩
  · simp [loadInitializer, reviveStored, hbad]
  · simp [loadInitializer, reviveStored, hbad]

/-- Claim C7 witness: the amended theorem applied to the concrete date
parser and the malformed stored blob. -/
theorem C7_revive_no_fallback_witness :
    (loadInitializer parseModel (some (Except.ok stGarbage)) 5).createdAt = none ∧
    (loadInitializer parseModel (some (Except.ok stGarbage)) 5).createdAt ≠ some 5 ∧
    loadInitializer parseModel (some (Except.error ())) 5 = createSampleAssessment 5 ∧
    loadInitializer parseModel none 5 = createSampleAssessment 5 :=
  C7_revive_no_fallback parseModel stGarbage 5 (by decide)

/-- Claim C8: `updateQuestion` with a question id that occurs nowhere is a
silent no-op — it is a total function and the resulting section list is
equal to the input's. -/
theorem C8_update_missing_question_noop (a : Assessment) (qid : String)
    (p : QuestionPatch) (h : ∀ s ∈ a.sections, ∀ q ∈ s.questions, q.id ≠ qid) :
    (updateQuestionSidebar a qid p).sections = a.sections := by
  show a.sections.map _ = a.sections
  refine list_map_eq_self fun s hs => ?_
  have hqs : s.questions.map
      (fun q => if q.id = qid then applyPatch q p else q) = s.questions :=
    list_map_eq_self fun q hq => if_neg (h s hs q hq)
  show ({ s with questions := s.questions.map (fun q => if q.id = qid then applyPatch q p else q) } : Section) = s
  rw [hqs]

/-- Claim C8 witness: the theorem applied to the sample two-section
assessment and a question id absent from every section. -/
theorem C8_update_missing_question_noop_witness :
    (updateQuestionSidebar sampleTwo "question-missing" {}).sections =
      sampleTwo.sections :=
  C8_update_missing_question_noop sampleTwo "question-missing" {} (by decide)

/-- Claim C9: the progress computation is total — with zero questions
overall it is 0 (the division is guarded by `totalQuestions > 0`), and
otherwise it is the number of distinct answered question ids over the
total question count, times 100. -/
theorem C9_progress_total (a : Assessment) (rs : Responses) :
    (totalQuestions a = 0 → progress a rs = 0) ∧
    ((rs.map Prod.fst).Nodup → 0 < totalQuestions a →
      progress a rs =
        (((rs.map Prod.fst).dedup.length : ℚ) / (totalQuestions a : ℚ)) * 100) := by
  constructor
  · intro h0
    simp [progress, h0]
  · intro hnd hpos
    have hded : (rs.map Prod.fst).dedup = rs.map Prod.fst :=
      List.dedup_eq_self.mpr hnd
    simp [progress, hpos, answeredQuestions, hded]

/-- Claim C9 witness: the theorem applied to the sample two-section
assessment and a single-answer response map. -/
theorem C9_progress_total_witness :
    progress sampleTwo [("qa0", .str "x")] =
      ((([("qa0", RVal.str "x")] : Responses).map Prod.fst).dedup.length : ℚ) /
        (totalQuestions sampleTwo : ℚ) * 100 :=
  (C9_progress_total sampleTwo [("qa0", .str "x")]).2 (by decide) (by decide)

/-- Claim C10: the `ConditionalLogic` type admits the tags `greater-than`
and `less-than`, but the visibility evaluator has no case for them, so a
question conditioned with either tag is always visible (the fail-open
default branch), for every response map. -/
theorem C10_unknown_condition_fail_open (q : Question) (c : ConditionalLogic)
    (rs : Responses) (hc : q.conditional = some c)
    (ht : c.condition = .greaterThan ∨ c.condition = .lessThan) :
    shouldShowQuestion q rs = true := by
  rcases ht with h | h <;> simp [shouldShowQuestion, hc, h]

/-- Claim C10 witness: the theorem applied to the concrete
`greater-than`-conditional question with an empty response map. -/
theorem C10_unknown_condition_fail_open_witness :
    shouldShowQuestion qGreater [] = true :=
  C10_unknown_condition_fail_open qGreater
    { dependsOn := "D", condition := .greaterThan, value := .cnum 5 }
    [] rfl (Or.inl rfl)

end HRB
